import Mathlib

/-!
Verification of the document composer in `generate_pdf_direct.py`.

The script builds a fixed list of reportlab flowables (`elements`) describing
an API-documentation PDF, then hands the list to `SimpleDocTemplate.build`,
which paginates it and writes `API_DOCUMENTATION.pdf`.  Below, the construction
phase is embedded as pure Lean data (styles, table data and the ordered block
sequence are transcribed from the source), and the external layout engine and
file system — which are not part of this repository — are modelled from the
specification where a claim depends on them.
-/

set_option autoImplicit false
set_option maxRecDepth 100000

namespace PhrmaPdf

/-- Paragraph alignment constants `TA_LEFT`, `TA_CENTER`, `TA_JUSTIFY`
(from `reportlab.lib.enums`, imported at line 11 of the source). -/
inductive Alignment where
  | left
  | center
  | justify
  deriving DecidableEq, Repr

/-- A `ParagraphStyle`: the named bundle of visual attributes the source
creates with `ParagraphStyle(name, parent=styles[...], ...)`.  Only the
attributes the source actually sets are carried; `parent` records the name of
the stylesheet entry the style derives from. -/
structure ParaStyle where
  name : String
  parent : String
  fontSize : Option ℚ := none
  fontName : Option String := none
  textColor : Option String := none
  backColor : Option String := none
  alignment : Option Alignment := none
  spaceBefore : Option ℚ := none
  spaceAfter : Option ℚ := none
  leftIndent : Option ℚ := none
  borderPadding : Option ℚ := none
  deriving DecidableEq, Repr

/-- The kinds of flowable available to the source.  The four content-block
variants (`Paragraph`, `Table`, `Spacer`, `PageBreak`) are the ones the script
appends; `frame` and `pageTemplate` stand for the `Frame` and `PageTemplate`
flowable kinds that line 9 of the source imports but never appends.
A table carries its 2-D cell data and its explicit `colWidths` (in points);
its purely visual `TableStyle` commands (background colours, grid, paddings,
per-region fonts) are static styling configuration referenced by no claim and
are not modelled.  The cells of `title_data` are themselves `Paragraph`
objects in the source; their text content is kept. -/
inductive Flowable where
  | para (text : String) (style : ParaStyle)
  | table (data : List (List String)) (colWidths : List ℚ)
  | spacer (width height : ℚ)
  | pageBreak
  | frame
  | pageTemplate
  deriving DecidableEq, Repr

/-- Construction-phase failure: the only way building the block sequence can
fail is an undefined style-sheet reference (`styles[name]` raising a lookup
error in the source). -/
inductive ConfigError where
  | undefinedStyle (name : String)
  deriving DecidableEq, Repr

/-- Failures of the whole generate-and-write operation. -/
inductive PdfError where
  | config (e : ConfigError)
  | renderError
  | ioError
  deriving DecidableEq, Repr

/-! ## Page geometry and units

reportlab interprets bare numbers as points.  `inch` (line 8 import) is
72 points.  The script defines its own constant `mm = 0.0393701` — the
millimetre→inch factor — and passes `15*mm` and `20*mm` directly as margins,
where the engine reads them as points. -/

/-- `reportlab.lib.units.inch` = 72 points. -/
def inch : ℚ := 72

/-- The script's own constant: `mm = 0.0393701  # mm to inch conversion`
(line 19 of the source). -/
def mm : ℚ := 0.0393701

/-- reportlab's genuine millimetre unit, `72/25.4` points per mm
(`reportlab.lib.units.mm`); used only to compare against what the script
actually passes. -/
def reportlabMM : ℚ := 360 / 127

/-- Width of an A4 page in points: `210 * (72/25.4) = 75600/127`
(`reportlab.lib.pagesizes.A4`, used at line 22 of the source). -/
def A4Width : ℚ := 75600 / 127

/-- `rightMargin=15*mm` (line 23). -/
def rightMargin : ℚ := 15 * mm

/-- `leftMargin=15*mm` (line 24). -/
def leftMargin : ℚ := 15 * mm

/-- `topMargin=20*mm` (line 25). -/
def topMargin : ℚ := 20 * mm

/-- `bottomMargin=20*mm` (line 26). -/
def bottomMargin : ℚ := 20 * mm

/-- The horizontal content width the engine actually works with: page width
minus the two side margins as passed. -/
def contentWidth : ℚ := A4Width - leftMargin - rightMargin

/-- `pdf_filename = "API_DOCUMENTATION.pdf"` (line 18). -/
def pdf_filename : String := "API_DOCUMENTATION.pdf"

/-! ## Style registry

The script obtains `styles = getSampleStyleSheet()` and resolves parent
styles through it by name.  The sample stylesheet is part of the external
engine, not of this repository. -/

/-- Modelled from the spec: the style registry of the external
Layout/Typesetting Engine (`getSampleStyleSheet`), in which "every StyleSpec
referenced by any block" must exist; these are the standard entry names of
that stylesheet. -/
def sampleStyleNames : List String :=
  ["Normal", "BodyText", "Italic", "Heading1", "Heading2", "Heading3",
   "Heading4", "Heading5", "Heading6", "Title", "Bullet", "Definition",
   "Code", "UnorderedList", "OrderedList"]

/-- `styles[name]`: a by-name lookup in the stylesheet.  A present name
resolves to itself; an absent name is an error — the stylesheet never
substitutes a default for an unknown name. -/
def resolveStyle (name : String) : Except ConfigError String :=
  if sampleStyleNames.contains name then Except.ok name
  else Except.error (ConfigError.undefinedStyle name)

/-! ## The styles the script defines (lines 37–85 and the inline ones) -/

/-- `title_style` = ParagraphStyle CustomTitle (lines 37–45). -/
def title_style : ParaStyle :=
  { name := "CustomTitle", parent := "Heading1", fontSize := some 28,
    textColor := some "#FFFFFF", spaceAfter := some 6,
    alignment := some Alignment.center, fontName := some "Helvetica-Bold" }

/-- `heading_style` = ParagraphStyle CustomHeading (lines 47–56). -/
def heading_style : ParaStyle :=
  { name := "CustomHeading", parent := "Heading2", fontSize := some 16,
    textColor := some "#FFFFFF", spaceAfter := some 12, spaceBefore := some 12,
    fontName := some "Helvetica-Bold", backColor := some "#667eea" }

/-- `subheading_style` = ParagraphStyle CustomSubHeading (lines 58–66). -/
def subheading_style : ParaStyle :=
  { name := "CustomSubHeading", parent := "Heading3", fontSize := some 13,
    textColor := some "#333333", spaceAfter := some 10, spaceBefore := some 10,
    fontName := some "Helvetica-Bold" }

/-- `body_style` = ParagraphStyle CustomBody (lines 68–75). -/
def body_style : ParaStyle :=
  { name := "CustomBody", parent := "BodyText", fontSize := some 10,
    textColor := some "#333333", spaceAfter := some 8,
    alignment := some Alignment.justify }

/-- `code_style` = ParagraphStyle CodeStyle (lines 77–85). -/
def code_style : ParaStyle :=
  { name := "CodeStyle", parent := "Normal", fontSize := some 8,
    textColor := some "#d4d4d4", backColor := some "#1e1e1e",
    spaceAfter := some 6, fontName := some "Courier" }

/-- Inline ParagraphStyle Subtitle (lines 93–96). -/
def subtitle_style : ParaStyle :=
  { name := "Subtitle", parent := "Normal", fontSize := some 16,
    textColor := some "#FFFFFF", alignment := some Alignment.center }

/-- Inline ParagraphStyle ReqBox of the login requirements box
(lines 263–265): the only requirements box that also sets `borderPadding`. -/
def reqBoxPadded_style : ParaStyle :=
  { name := "ReqBox", parent := "Normal", fontSize := some 9,
    textColor := some "#333", backColor := some "#fff3cd",
    leftIndent := some 10, spaceAfter := some 10, borderPadding := some 10 }

/-- Inline ParagraphStyle ReqBox as used by the validation/requirement boxes
at lines 349–351, 380–382, 408–410 and 582–584. -/
def reqBox_style : ParaStyle :=
  { name := "ReqBox", parent := "Normal", fontSize := some 9,
    textColor := some "#333", backColor := some "#fff3cd",
    leftIndent := some 10, spaceAfter := some 10 }

/-- Inline ParagraphStyle Auth (lines 274–277 and 296–299). -/
def authNote_style : ParaStyle :=
  { name := "Auth", parent := "Normal", fontSize := some 9,
    textColor := some "#721c24", backColor := some "#f8d7da",
    leftIndent := some 10, spaceAfter := some 10 }

/-- Inline ParagraphStyle Note (lines 436–439). -/
def note_style : ParaStyle :=
  { name := "Note", parent := "Normal", fontSize := some 9,
    textColor := some "#0066cc", backColor := some "#e7f3ff",
    leftIndent := some 10, spaceAfter := some 10 }

/-- `footer_style` = ParagraphStyle Footer (lines 680–687). -/
def footer_style : ParaStyle :=
  { name := "Footer", parent := "Normal", fontSize := some 9,
    textColor := some "#666", spaceAfter := some 10,
    alignment := some Alignment.center }

/-! ## Table data (transcribed literally from the source) -/

/-- `title_data` (lines 91–97); the two cells are Paragraphs with
`title_style` and the inline Subtitle style — their text is kept. -/
def title_data : List (List String) :=
  [["🏥 PHRMA Production App"],
   ["Complete API Documentation"]]

/-- `metadata_data` (lines 113–118). -/
def metadata_data : List (List String) :=
  [["API Version", "v2"],
   ["Generated", "February 17, 2026"],
   ["Status", "Active"],
   ["Endpoints", "30+"]]

/-- `auth_data` (lines 163–167). -/
def auth_data : List (List String) :=
  [["Method", "Description", "Usage"],
   ["JWT Token", "Bearer token in Authorization header or cookie",
    "Authorization: Bearer \x7btoken\x7d"],
   ["Gateway Mode", "Headers from API Gateway",
    "X-User-ID, X-User-Role, X-User-Email"]]

/-- `headers_data` (lines 188–194). -/
def headers_data : List (List String) :=
  [["Header", "Type", "Description"],
   ["Content-Type", "application/json", "Required for POST/PUT requests"],
   ["Authorization", "Bearer \x7btoken\x7d", "For authenticated endpoints"],
   ["X-User-ID", "String (UUID)", "Optional (Gateway mode)"],
   ["X-User-Role", "admin|user|manager", "Optional (Gateway mode)"]]

/-- `roles_data` (lines 213–218). -/
def roles_data : List (List String) :=
  [["Role", "Permissions", "Endpoints Access"],
   ["admin", "Full access, verification, store management",
    "/admin/*, /units/*, /gst/*"],
   ["user", "Regular user, can manage own store",
    "/medicine-store/*, /items/*, /orders/*"],
   ["manager", "Store manager, manages items and orders",
    "/items/*, /orders/*, /payments/*"]]

/-- `store_req_data` (lines 310–323). -/
def store_req_data : List (List String) :=
  [["Field", "Type", "Required", "Validation"],
   ["userName", "String", "Yes", "Name of store owner"],
   ["email", "String", "Yes", "Valid email format"],
   ["phone", "String", "Yes", "10-11 digit Indian phone"],
   ["storeName", "String", "Yes", "Official store name"],
   ["storeType", "String", "Yes", "retail|wholesale|chain"],
   ["GSTNumber", "String", "Yes", "Valid 15-digit GST number"],
   ["pharmacyLicence", "String", "Yes", "Valid pharmacy license for state"],
   ["address", "String", "Yes", "Complete address"],
   ["city", "String", "Yes", "Must match pincode"],
   ["state", "String", "Yes", "Must match pincode"],
   ["pincode", "String", "Yes", "6-digit Indian pincode"]]

/-- `status_data` (lines 605–615). -/
def status_data : List (List String) :=
  [["Code", "Meaning", "Scenarios"],
   ["200", "OK", "Successful GET/PATCH"],
   ["201", "Created", "Successful POST creating resource"],
   ["400", "Bad Request", "Validation errors"],
   ["401", "Unauthorized", "Missing/invalid token"],
   ["403", "Forbidden", "Insufficient permissions"],
   ["404", "Not Found", "Resource not found"],
   ["409", "Conflict", "Duplicate resource"],
   ["500", "Server Error", "Internal server error"]]

/-- `pagination_data` (lines 635–642). -/
def pagination_data : List (List String) :=
  [["Parameter/Header", "Type", "Description"],
   ["skip", "Number", "Records to skip (default: 0)"],
   ["limit", "Number", "Records per page (default: 10, max: 100)"],
   ["X-RateLimit-Limit", "Number", "1000 requests per hour"],
   ["X-RateLimit-Remaining", "Number", "Remaining requests in window"],
   ["X-RateLimit-Reset", "Timestamp", "When limit resets"]]

/-! ## Endpoint description lists driving the source's `for` loops -/

/-- `toc_items` (lines 137–150). -/
def toc_items : List String :=
  ["1. Authentication & Authorization",
   "2. User Management",
   "3. Medicine Store",
   "4. Admin Store Management",
   "5. Items Management",
   "6. Location Services",
   "7. Unit Management",
   "8. GST Management",
   "9. Orders",
   "10. Payments",
   "11. Notifications",
   "12. Response Formats"]

/-- `admin_endpoints` (lines 360–365). -/
def admin_endpoints : List (String × String) :=
  [("GET /api/v2/admin/stores/pending",
    "Get all stores awaiting verification. Admin only."),
   ("GET /api/v2/admin/stores/:storeId",
    "Get detailed information about a specific store for verification review."),
   ("PUT /api/v2/admin/stores/:storeId/status",
    "Update store verification status (approve, reject, suspend)."),
   ("GET /api/v2/admin/stores/stats/verification",
    "Get verification statistics and summary.")]

/-- `items_endpoints` (lines 391–397). -/
def items_endpoints : List (String × String) :=
  [("POST /api/v2/items/add",
    "Create new regular item. Requires authentication and file uploads."),
   ("POST /api/v2/items/premium",
    "Create premium/featured item with enhanced visibility."),
   ("PUT /api/v2/items/update/:itemId",
    "Update existing item including images."),
   ("DELETE /api/v2/items/delete/:itemId",
    "Delete single item (admin only)."),
   ("DELETE /api/v2/items/",
    "Delete all items (admin only - destructive operation).")]

/-- `loc_endpoints` (lines 419–423). -/
def loc_endpoints : List (String × String) :=
  [("GET /api/v2/location/states",
    "Get list of all Indian states and union territories."),
   ("GET /api/v2/location/cities/:state",
    "Get list of cities for a given state."),
   ("GET /api/v2/location/pincode/:pincode",
    "Get city and state information for a given pincode.")]

/-- `parent_units` (lines 448–453). -/
def parent_units : List (String × String) :=
  [("POST /api/v2/units/add-parent-units",
    "Create new parent unit (base measurement unit)."),
   ("GET /api/v2/units/get-parent-units",
    "Get all parent units (admin only)."),
   ("PUT /api/v2/units/update-parent-units/:id",
    "Update parent unit (admin only)."),
   ("DELETE /api/v2/units/delete-parent-units/:id",
    "Delete parent unit (admin only).")]

/-- `child_units` (lines 463–468). -/
def child_units : List (String × String) :=
  [("POST /api/v2/units/add-child-units",
    "Create child unit (derived from parent unit)."),
   ("GET /api/v2/units/get-child-units",
    "Get all child units (admin only)."),
   ("PUT /api/v2/units/update-child-units/:id",
    "Update child unit (admin only)."),
   ("DELETE /api/v2/units/delete-child-units/:id",
    "Delete child unit (admin only).")]

/-- `gst_endpoints` (lines 486–491). -/
def gst_endpoints : List (String × String) :=
  [("POST /api/v2/gst/add", "Add new GST rate for product category."),
   ("PUT /api/v2/gst/update/:gstId", "Update existing GST rate."),
   ("DELETE /api/v2/gst/delete/:gstId", "Delete GST rate."),
   ("GET /api/v2/gst/", "Get all GST rates.")]

/-- `notif_endpoints` (lines 563–568). -/
def notif_endpoints : List (String × String) :=
  [("GET /api/v2/notification-service/health",
    "Check notification service health (public)."),
   ("POST /api/v2/notification-service/send-to-user",
    "Send to authenticated user (requires auth)."),
   ("POST /api/v2/notification-service/send-to-users",
    "Send to multiple users by userIds array."),
   ("POST /api/v2/notification-service/send-bulk",
    "Send bulk notifications (up to 1000 users).")]

/-! ## Large literal strings (code samples and call-out texts) -/

/-- `login_request` (lines 244–247). -/
def login_request : String :=
  "Request Body:\n- email (String, Required): User email address\n- password (String, Required): User password (minimum 8 characters)\n- fcmToken (String, Optional): Firebase Cloud Messaging token for push notifications"

/-- `login_json` (line 251). -/
def login_json : String :=
  "\x7b\"email\": \"user@example.com\", \"password\": \"securePassword123\", \"fcmToken\": \"eO...K1\"\x7d"

/-- `success_response` (line 257). -/
def success_response : String :=
  "\x7b\"status\": 200, \"message\": \"Login Successful\", \"data\": \x7b\"user\": \x7b\"_id\": \"507f1f77bcf86cd799439011\", \"name\": \"John Doe\", \"email\": \"user@example.com\", \"phone\": \"+919876543210\", \"role\": \"user\", \"token\": \"eyJhbGc...iOiJIUzI1NiIsInR5cCI6IkpXVCJ9\"\x7d\x7d"

/-- Text of `req_box` (line 262). -/
def login_req_text : String :=
  "<b>Requirements:</b><br/>✓ Email must be valid format<br/>✓ Password must be at least 8 characters<br/>✓ User must be registered in the system<br/>✓ Account must not be suspended"

/-- `store_json` (line 342). -/
def store_json : String :=
  "\x7b\"userName\": \"Dr. Rajesh Kumar\", \"email\": \"rajesh.med@example.com\", \"phone\": \"9876543210\", \"storeName\": \"Apollo Pharmacy\", \"storeType\": \"retail\", \"GSTNumber\": \"27AABCU9603R1Z0\", \"pharmacyLicence\": \"PL2024000123\", \"address\": \"Plot 123, Medical Complex\", \"city\": \"Bangalore\", \"state\": \"Karnataka\", \"pincode\": \"560034\"\x7d"

/-- Text of `val_req` (line 348). -/
def val_req_text : String :=
  "<b>Validation Requirements:</b><br/>✓ GST format validation<br/>✓ Phone: 10-11 digits, valid Indian format<br/>✓ Pharmacy License valid for state<br/>✓ Pincode must match city and state<br/>✓ Email must be unique<br/>✓ Store enters \x27pending\x27 verification status"

/-- `status_json` (lines 373–374). -/
def status_json : String :=
  "\x7b\"action\": \"approve\", \"adminRemarks\": \"All documents verified successfully\"\x7d\nValid actions: approve|reject|suspend"

/-- Text of `admin_req` (line 379). -/
def admin_req_text : String :=
  "<b>Requirements:</b><br/>✓ User must have admin role<br/>✓ For reject/suspend, adminRemarks is mandatory<br/>✓ Once approved, store can add items and process orders"

/-- Text of `items_req` (line 407). -/
def items_req_text : String :=
  "<b>Item Requirements:</b><br/>✓ User must be authenticated<br/>✓ Must have associated medicine store<br/>✓ Store must be verified/approved<br/>✓ Images: JPEG/PNG, max 5MB each<br/>✓ Price > 0, Quantity ≥ 0"

/-- `pincode_example` (lines 430–431). -/
def pincode_example : String :=
  "Example: /api/v2/location/pincode/560034\nResponse: \x7b\"status\": 200, \"data\": \x7b\"pincode\": \"560034\", \"city\": \"Bangalore\", \"state\": \"Karnataka\"\x7d\x7d"

/-- Text of the location note (line 435). -/
def location_note_text : String :=
  "<b>Note:</b> Public endpoints, no authentication required."

/-- `child_json` (lines 477–478). -/
def child_json : String :=
  "Child Unit Example:\n\x7b\"childUnitName\": \"100 Milliliters\", \"childUnitSymbol\": \"100ml\", \"parentUnitId\": \"507f...\", \"conversionFactor\": 0.1\x7d"

/-- `gst_json` (lines 498–501). -/
def gst_json : String :=
  "Add GST Example:\n\x7b\"productCategory\": \"Medicines\", \"gstRate\": 5, \"description\": \"GST rate for medicines and pharmaceuticals\"\x7d\n\nValid rates in India: 0%, 5%, 12%, 18%, 28%"

/-- `order_fields` (lines 512–516). -/
def order_fields : String :=
  "Request Body:\n- userId (String, Required): User ID\n- items (Array, Required): Order items with quantity and price\n- totalAmount (Number, Required): Order total\n- deliveryAddress (String, Optional): Delivery address"

/-- `order_json` (line 520). -/
def order_json : String :=
  "\x7b\"userId\": \"507f...\", \"items\": [\x7b\"itemId\": \"507f...\", \"quantity\": 2, \"price\": 299\x7d], \"totalAmount\": 598, \"deliveryAddress\": \"123 Main St, Bangalore\"\x7d"

/-- `order_status` (lines 527–529). -/
def order_status : String :=
  "Status Flow: pending → processing → shipped → delivered → cancelled\n\nExample: \x7b\"status\": \"shipped\", \"userId\": \"507f...\"\x7d"

/-- `payment_fields` (lines 540–544). -/
def payment_fields : String :=
  "Request Body:\n- userId (String, Required)\n- orderId (String, Required)\n- amount (Number, Required)\n- paymentMethod (String, Required): credit_card|debit_card|upi|net_banking"

/-- `refund_json` (line 551). -/
def refund_json : String :=
  "\x7b\"userId\": \"507f...\", \"amount\": 598, \"reason\": \"Order cancelled by customer\"\x7d"

/-- `notif_json` (lines 575–576). -/
def notif_json : String :=
  "Notification Body:\n\x7b\"title\": \"Order Confirmed\", \"body\": \"Your order #ORD123 has been confirmed\", \"data\": \x7b\"orderId\": \"ORD123\", \"screen\": \"OrderDetails\"\x7d\x7d"

/-- Text of `notif_req` (line 581). -/
def notif_req_text : String :=
  "<b>Notification Requirements:</b><br/>✓ Title under 100 characters<br/>✓ Body should be brief and meaningful<br/>✓ Data object optional with custom properties<br/>✓ Bulk: up to 1000 userIds per request"

/-- `success_fmt` (line 594). -/
def success_fmt : String :=
  "\x7b\"status\": 200, \"message\": \"Operation completed successfully\", \"data\": \x7b...\x7d\x7d"

/-- `error_fmt` (line 599). -/
def error_fmt : String :=
  "\x7b\"status\": 400, \"message\": \"Error description\", \"error\": \x7b\"code\": \"ERROR_CODE\", \"details\": \"...\"\x7d\x7d"

/-- `footer_content` (lines 662–678), a Python triple-quoted string whose
leading newline and four-space line indentation are part of the value. -/
def footer_content : String :=
  "\n    <b>PHRMA Production App - API Documentation v1.0</b><br/>\n    <b>Generated:</b> February 17, 2026<br/>\n    <b>API Version:</b> v2<br/>\n    <b>Total Endpoints:</b> 30+<br/>\n    <b>Support:</b> api-support@phrma.com<br/>\n    <br/>\n    <b>Key Features:</b><br/>\n    ✓ Complete REST API with JWT Authentication<br/>\n    ✓ Role-based Access Control (Admin, User, Manager)<br/>\n    ✓ Comprehensive Input Validation<br/>\n    ✓ Automatic Notifications for Orders & Payments<br/>\n    ✓ File Upload Support with Image Processing<br/>\n    ✓ Error Handling with Descriptive Messages<br/>\n    ✓ Pagination & Rate Limiting<br/>\n    ✓ Gateway Mode Support for Microservices\n    "

/-! ## The block sequence, in source order

The source appends every flowable to the single list `elements`, top to
bottom; the `# ============ SECTION ============` banner comments in the
source delimit the groups below. -/

/-- Title page (lines 87–130): leading spacer, the coloured title table,
a spacer and the metadata table. -/
def titlePageBlocks : List Flowable :=
  [Flowable.spacer 1 (1.5 * inch),
   Flowable.table title_data [7 * inch],
   Flowable.spacer 1 (0.5 * inch),
   Flowable.table metadata_data [2 * inch, 2 * inch]]

/-- Table of contents (lines 134–154): heading, then for each of the twelve
entries a body paragraph and a small spacer. -/
def tocBlocks : List Flowable :=
  Flowable.para "📑 Table of Contents" heading_style ::
    toc_items.flatMap (fun item =>
      [Flowable.para item body_style, Flowable.spacer 1 (0.1 * inch)])

/-- Authentication section (lines 158–233). -/
def authSection : List Flowable :=
  [Flowable.para "🔐 Authentication & Authorization" heading_style,
   Flowable.para "Authentication Methods" subheading_style,
   Flowable.table auth_data [1.5 * inch, 2.5 * inch, 2.5 * inch],
   Flowable.spacer 1 (0.2 * inch),
   Flowable.para "Required Headers" subheading_style,
   Flowable.table headers_data [1.8 * inch, 2.2 * inch, 2.5 * inch],
   Flowable.spacer 1 (0.2 * inch),
   Flowable.para "User Roles & Permissions" subheading_style,
   Flowable.table roles_data [1.2 * inch, 2.5 * inch, 2.8 * inch]]

/-- User-management section (lines 237–299). -/
def userSection : List Flowable :=
  [Flowable.para "👤 User Management Endpoints" heading_style,
   Flowable.para "POST /api/v2/user/login" subheading_style,
   Flowable.para "Authenticate user with email and password. Returns JWT token for subsequent requests." body_style,
   Flowable.para login_request code_style,
   Flowable.spacer 1 (0.1 * inch),
   Flowable.para "Request Example:" subheading_style,
   Flowable.para login_json code_style,
   Flowable.spacer 1 (0.1 * inch),
   Flowable.para "Success Response (200 OK):" body_style,
   Flowable.para success_response code_style,
   Flowable.spacer 1 (0.15 * inch),
   Flowable.para login_req_text reqBoxPadded_style,
   Flowable.spacer 1 (0.1 * inch),
   Flowable.para "POST /api/v2/user/logout" subheading_style,
   Flowable.para "Logout user by invalidating the JWT token. Clears authentication cookie." body_style,
   Flowable.para "<b>Authentication Required:</b> Bearer Token or Valid JWT Cookie" authNote_style,
   Flowable.spacer 1 (0.2 * inch),
   Flowable.para "POST /api/v2/user/forgot/password" subheading_style,
   Flowable.para "Request password reset. Sends OTP to registered email address." body_style,
   Flowable.para "Request Body: email (String, Required)" code_style,
   Flowable.spacer 1 (0.15 * inch),
   Flowable.para "POST /api/v2/user/verifyOtp" subheading_style,
   Flowable.para "Verify OTP sent to email for password reset." body_style,
   Flowable.para "Request Body: email (String, Required), otp (String, Required)" code_style,
   Flowable.spacer 1 (0.15 * inch),
   Flowable.para "POST /api/v2/user/ResetPassword" subheading_style,
   Flowable.para "Reset user password after OTP verification. Internal service only." body_style,
   Flowable.para "<b>Requires:</b> verifyInternalService Middleware" authNote_style]

/-- Medicine-store section (lines 303–353). -/
def medicineSection : List Flowable :=
  [Flowable.para "💊 Medicine Store Endpoints" heading_style,
   Flowable.para "POST /api/v2/medicine-store/register" subheading_style,
   Flowable.para "Register a new medicine store with complete verification including GST, pharmacy license, and address validation." body_style,
   Flowable.spacer 1 (0.1 * inch),
   Flowable.table store_req_data [1.2 * inch, 1 * inch, 0.8 * inch, 2.3 * inch],
   Flowable.spacer 1 (0.15 * inch),
   Flowable.para "Request Example:" subheading_style,
   Flowable.para store_json code_style,
   Flowable.spacer 1 (0.1 * inch),
   Flowable.para val_req_text reqBox_style]

/-- Admin store-management section (lines 357–384). -/
def adminSection : List Flowable :=
  Flowable.para "⚙️ Admin Store Management" heading_style ::
    admin_endpoints.flatMap (fun p =>
      [Flowable.para p.1 subheading_style, Flowable.para p.2 body_style,
       Flowable.spacer 1 (0.1 * inch)]) ++
    [Flowable.para "Status Update Body:" subheading_style,
     Flowable.para status_json code_style,
     Flowable.spacer 1 (0.1 * inch),
     Flowable.para admin_req_text reqBox_style]

/-- Items-management section (lines 388–412). -/
def itemsSection : List Flowable :=
  Flowable.para "📦 Items Management" heading_style ::
    items_endpoints.flatMap (fun p =>
      [Flowable.para p.1 subheading_style, Flowable.para p.2 body_style,
       Flowable.spacer 1 (0.08 * inch)]) ++
    [Flowable.spacer 1 (0.1 * inch),
     Flowable.para items_req_text reqBox_style]

/-- Location-services section (lines 416–439). -/
def locationSection : List Flowable :=
  Flowable.para "🗺️ Location Services" heading_style ::
    loc_endpoints.flatMap (fun p =>
      [Flowable.para p.1 subheading_style, Flowable.para p.2 body_style,
       Flowable.spacer 1 (0.1 * inch)]) ++
    [Flowable.para pincode_example code_style,
     Flowable.spacer 1 (0.1 * inch),
     Flowable.para location_note_text note_style]

/-- Unit-management section (lines 443–479); the endpoint names are wrapped
in bold markup by the source's f-string. -/
def unitsSection : List Flowable :=
  [Flowable.para "📏 Unit Management" heading_style,
   Flowable.para "Parent Units (e.g., Kilogram, Liter)" subheading_style] ++
    parent_units.flatMap (fun p =>
      [Flowable.para ("<b>" ++ p.1 ++ "</b>") body_style,
       Flowable.para p.2 body_style,
       Flowable.spacer 1 (0.05 * inch)]) ++
    [Flowable.spacer 1 (0.15 * inch),
     Flowable.para "Child Units (e.g., 100ml, 500g)" subheading_style] ++
    child_units.flatMap (fun p =>
      [Flowable.para ("<b>" ++ p.1 ++ "</b>") body_style,
       Flowable.para p.2 body_style,
       Flowable.spacer 1 (0.05 * inch)]) ++
    [Flowable.spacer 1 (0.1 * inch),
     Flowable.para child_json code_style]

/-- GST section (lines 483–502). -/
def gstSection : List Flowable :=
  Flowable.para "💰 GST Rate Management" heading_style ::
    gst_endpoints.flatMap (fun p =>
      [Flowable.para p.1 subheading_style, Flowable.para p.2 body_style,
       Flowable.spacer 1 (0.08 * inch)]) ++
    [Flowable.para gst_json code_style]

/-- Orders section (lines 506–530). -/
def ordersSection : List Flowable :=
  [Flowable.para "📋 Orders" heading_style,
   Flowable.para "POST /api/v2/orders" subheading_style,
   Flowable.para "Create new order with automatic notification to user." body_style,
   Flowable.para order_fields code_style,
   Flowable.spacer 1 (0.1 * inch),
   Flowable.para order_json code_style,
   Flowable.spacer 1 (0.1 * inch),
   Flowable.para "PATCH /api/v2/orders/:orderId/status" subheading_style,
   Flowable.para "Update order status and notify user." body_style,
   Flowable.para order_status code_style]

/-- Payments section (lines 534–556). -/
def paymentsSection : List Flowable :=
  [Flowable.para "💳 Payments" heading_style,
   Flowable.para "POST /api/v2/payments" subheading_style,
   Flowable.para "Process payment and send confirmation notification." body_style,
   Flowable.para payment_fields code_style,
   Flowable.spacer 1 (0.1 * inch),
   Flowable.para "POST /api/v2/payments/:paymentId/refund" subheading_style,
   Flowable.para "Process refund. Reflects in 5-7 business days." body_style,
   Flowable.para refund_json code_style,
   Flowable.spacer 1 (0.1 * inch),
   Flowable.para "POST /api/v2/payments/failed" subheading_style,
   Flowable.para "Handle failed payment and notify user." body_style]

/-- Notifications section (lines 560–586). -/
def notifSection : List Flowable :=
  Flowable.para "🔔 Notifications" heading_style ::
    notif_endpoints.flatMap (fun p =>
      [Flowable.para p.1 subheading_style, Flowable.para p.2 body_style,
       Flowable.spacer 1 (0.08 * inch)]) ++
    [Flowable.para notif_json code_style,
     Flowable.spacer 1 (0.1 * inch),
     Flowable.para notif_req_text reqBox_style]

/-- Response-formats section (lines 590–657). -/
def responseSection : List Flowable :=
  [Flowable.para "📊 Standard Response Formats" heading_style,
   Flowable.para "Success Response (2xx)" subheading_style,
   Flowable.para success_fmt code_style,
   Flowable.spacer 1 (0.15 * inch),
   Flowable.para "Error Response (4xx/5xx)" subheading_style,
   Flowable.para error_fmt code_style,
   Flowable.spacer 1 (0.15 * inch),
   Flowable.para "HTTP Status Codes" subheading_style,
   Flowable.table status_data [0.8 * inch, 1.5 * inch, 3.2 * inch],
   Flowable.spacer 1 (0.2 * inch),
   Flowable.para "Pagination & Rate Limiting" subheading_style,
   Flowable.table pagination_data [2 * inch, 1.2 * inch, 2.8 * inch]]

/-- The closing summary paragraph (line 688). -/
def footerPara : Flowable := Flowable.para footer_content footer_style

/-- The twelve per-API-area sections, in the order the source emits them. -/
def sections : List (List Flowable) :=
  [authSection, userSection, medicineSection, adminSection, itemsSection,
   locationSection, unitsSection, gstSection, ordersSection, paymentsSection,
   notifSection, responseSection]

/-- `elements`: the complete flowable sequence handed to `doc.build`
(lines 31–688), in exactly the order the source appends. -/
def elements : List Flowable :=
  titlePageBlocks ++ [Flowable.pageBreak] ++
  tocBlocks ++ [Flowable.pageBreak] ++
  authSection ++ [Flowable.pageBreak] ++
  userSection ++ [Flowable.pageBreak] ++
  medicineSection ++ [Flowable.pageBreak] ++
  adminSection ++ [Flowable.pageBreak] ++
  itemsSection ++ [Flowable.pageBreak] ++
  locationSection ++ [Flowable.pageBreak] ++
  unitsSection ++ [Flowable.pageBreak] ++
  gstSection ++ [Flowable.pageBreak] ++
  ordersSection ++ [Flowable.pageBreak] ++
  paymentsSection ++ [Flowable.pageBreak] ++
  notifSection ++ [Flowable.pageBreak] ++
  responseSection ++ [Flowable.pageBreak] ++
  [footerPara]

/-! ## The construction phase as a fallible computation

The only operations during block construction that can fail at all are the
stylesheet lookups `styles[...]`; everything else is literal data and
unconditional list appends.  `buildElements` performs exactly the lookups the
source performs, in source order, and yields the block sequence. -/

/-- The construction phase of `create_api_pdf` (lines 17–688): resolve every
stylesheet reference the source makes (each `styles[...]` subscript, in
order), then produce the block sequence.  No other failure mode exists in the
construction code: there is no width validation, no I/O and no clock access
anywhere in lines 17–688. -/
def buildElements : Except ConfigError (List Flowable) := do
  let _ ← resolveStyle "Heading1"   -- line 39, parent of title_style
  let _ ← resolveStyle "Heading2"   -- line 49, parent of heading_style
  let _ ← resolveStyle "Heading3"   -- line 60, parent of subheading_style
  let _ ← resolveStyle "BodyText"   -- line 70, parent of body_style
  let _ ← resolveStyle "Normal"     -- line 79, parent of code_style
  let _ ← resolveStyle "Normal"     -- line 94, Subtitle
  let _ ← resolveStyle "Normal"     -- line 263, ReqBox (login)
  let _ ← resolveStyle "Normal"     -- line 274, Auth (logout)
  let _ ← resolveStyle "Normal"     -- line 296, Auth (reset)
  let _ ← resolveStyle "Normal"     -- line 349, ReqBox (store)
  let _ ← resolveStyle "Normal"     -- line 380, ReqBox (admin)
  let _ ← resolveStyle "Normal"     -- line 408, ReqBox (items)
  let _ ← resolveStyle "Normal"     -- line 436, Note (location)
  let _ ← resolveStyle "Normal"     -- line 582, ReqBox (notifications)
  let _ ← resolveStyle "Normal"     -- line 682, parent of footer_style
  return elements

/-- `elements.append(block)` (the source appends each flowable with an
unconditional `list.append`): it cannot fail — in particular it performs no
column-width validation before accepting a table. -/
def appendBlock (es : List Flowable) (b : Flowable) :
    Except ConfigError (List Flowable) :=
  Except.ok (es ++ [b])

/-! ## The ambient world: clock and file system

The script's only interactions with the world outside its own memory are the
final `doc.build(elements)` write and the `print` calls; the construction
phase touches neither the clock nor the file system. -/

/-- A file system: contents by path (an artifact is modelled by the block
sequence serialized into it), and which paths are writable. -/
structure FileSys where
  files : String → Option (List Flowable)
  writable : String → Bool

/-- The ambient environment a run starts from: the wall-clock time and the
file system.  The script reads neither during construction (the `datetime`
module it pulls in at line 12 is never used). -/
structure Env where
  time : ℕ
  fs : FileSys

/-- The construction phase, run in an environment: it is pure — the
environment is returned untouched, and the result does not depend on it
(lines 17–688 of the source read no clock and perform no I/O). -/
def buildPhase (e : Env) : Except ConfigError (List Flowable) × Env :=
  (buildElements, e)

/-- Modelled from the spec: the external Layout Engine's `doc.build` write
step (spec §4.1 `render`, §7 `IOError`, §8 unwritable-path scenario, §6
"overwritten on each run").  If the output path is writable the complete
artifact replaces whatever was at that path; otherwise the write fails with
an I/O error and the file system is unchanged. -/
def docBuild (fs : FileSys) (path : String) (doc : List Flowable) :
    FileSys × Except PdfError Unit :=
  if fs.writable path then
    (⟨fun p => if p = path then some doc else fs.files p, fs.writable⟩,
     Except.ok ())
  else (fs, Except.error PdfError.ioError)

/-- `create_api_pdf()` (lines 14–702): construct the block sequence, then
hand it to the engine to render and write at the fixed
`pdf_filename`.  Any failure aborts the whole operation. -/
def create_api_pdf (e : Env) : Env × Except PdfError Unit :=
  match buildElements with
  | Except.error c => (e, Except.error (PdfError.config c))
  | Except.ok bs =>
      let r := docBuild e.fs pdf_filename bs
      (⟨e.time, r.1⟩, r.2)

/-! ## Observations on the block sequence -/

/-- The number of explicit `PageBreak` blocks in a sequence. -/
def countPB (bs : List Flowable) : ℕ :=
  bs.countP (fun b => decide (b = Flowable.pageBreak))

/-- Whether a flowable is one of the four content-block variants of the
spec's `ContentBlock` data model. -/
def isContentBlock : Flowable → Bool
  | Flowable.para _ _ => true
  | Flowable.table _ _ => true
  | Flowable.spacer _ _ => true
  | Flowable.pageBreak => true
  | Flowable.frame => false
  | Flowable.pageTemplate => false

/-- The explicit `colWidths` of every table block of a sequence, in order. -/
def tableColWidths (bs : List Flowable) : List (List ℚ) :=
  bs.filterMap (fun b =>
    match b with
    | Flowable.table _ ws => some ws
    | _ => none)

/-- The texts of the paragraphs styled with the section-heading style
`CustomHeading`, in order. -/
def headingTexts (bs : List Flowable) : List String :=
  bs.filterMap (fun b =>
    match b with
    | Flowable.para t s => if s.name = "CustomHeading" then some t else none
    | _ => none)

/-- Substring test on character lists. -/
def containsSubList (needle : List Char) : List Char → Bool
  | [] => needle.isEmpty
  | c :: rest =>
      needle.isPrefixOf (c :: rest) || containsSubList needle rest

/-- Substring test on strings. -/
def containsSubstring (hay needle : String) : Bool :=
  containsSubList needle.toList hay.toList

/-- Drop characters up to and including the first space. -/
def dropThroughSpace : List Char → List Char
  | [] => []
  | c :: cs => if c = ' ' then cs else dropThroughSpace cs

/-- Take characters up to (excluding) the first space. -/
def takeToSpace : List Char → List Char
  | [] => []
  | c :: cs => if c = ' ' then [] else c :: takeToSpace cs

/-- The topic keyword of a table-of-contents entry: the word right after the
`"n. "` numbering (e.g. `Authentication` for
`"1. Authentication & Authorization"`), as a character list. -/
def tocTopicWord (entry : String) : List Char :=
  takeToSpace (dropThroughSpace entry.toList)

/-! ## The layout engine's pagination, as a model

The engine is an external collaborator; what the spec guarantees of it is
that pagination is deterministic, that every explicit `PageBreak` starts a
new page, and that it may insert additional breaks on overflow but never
fewer. -/

/-- Modelled from the spec: one pagination of a document by the external
Layout Engine (spec §6 and §8).  `pageOf i` is the (0-indexed) page on which
position `i` of the block sequence falls, position `doc.length` standing for
the end of the document; pages only ever advance (`mono` — the engine may
insert extra breaks on overflow), an explicit `PageBreak` block forces the
next position onto a later page (`breakAdvances`), and `pageCount` counts the
pages of the produced artifact (`covers`). -/
structure EngineRun (doc : List Flowable) where
  pageOf : ℕ → ℕ
  mono : ∀ i j, i ≤ j → pageOf i ≤ pageOf j
  breakAdvances : ∀ i, doc[i]? = some Flowable.pageBreak →
    pageOf i < pageOf (i + 1)
  pageCount : ℕ
  covers : ∀ i, i ≤ doc.length → pageOf i < pageCount

theorem countPB_append (l₁ l₂ : List Flowable) :
    countPB (l₁ ++ l₂) = countPB l₁ + countPB l₂ := by
  simp [countPB, List.countP_append]

theorem countPB_take_mono (l : List Flowable) {i j : ℕ} (hij : i ≤ j) :
    countPB (l.take i) ≤ countPB (l.take j) := by
  have h : l.take i = (l.take j).take i := by
    rw [List.take_take, Nat.min_eq_left hij]
  calc countPB (l.take i) = countPB ((l.take j).take i) := by rw [h]
    _ ≤ countPB ((l.take j).take i) + countPB ((l.take j).drop i) :=
        Nat.le_add_right _ _
    _ = countPB (l.take j) := by rw [← countPB_append, List.take_append_drop]

theorem countPB_take_succ (l : List Flowable) (n : ℕ) :
    countPB (l.take (n + 1)) = countPB (l.take n) + countPB l[n]?.toList := by
  rw [List.take_succ, countPB_append]

/-- Every page assignment satisfying the engine contract puts position `k`
on a page no earlier than the number of explicit breaks before `k`. -/
theorem countPB_le_pageOf {doc : List Flowable} (E : EngineRun doc) :
    ∀ k, k ≤ doc.length → countPB (doc.take k) ≤ E.pageOf k := by
  intro k
  induction k with
  | zero => intro _; simp [countPB]
  | succ n ih =>
    intro hle
    have hn : countPB (doc.take n) ≤ E.pageOf n := ih (Nat.le_of_succ_le hle)
    by_cases h : doc[n]? = some Flowable.pageBreak
    · have h1 : countPB doc[n]?.toList = 1 := by
        rw [h]; simp [countPB]
      have h2 := E.breakAdvances n h
      rw [countPB_take_succ, h1]
      omega
    · have h1 : countPB doc[n]?.toList = 0 := by
        cases hx : doc[n]? with
        | none => simp [countPB]
        | some b =>
            have hb : ¬b = Flowable.pageBreak := fun hbe => h (by rw [hx, hbe])
            simp [countPB, hb]
      have h2 := E.mono n (n + 1) (Nat.le_succ n)
      rw [countPB_take_succ, h1]
      omega

/-- The artifact of any engine run has at least one more page than the
document has explicit `PageBreak` blocks. -/
theorem engine_pageCount_lower (doc : List Flowable) (E : EngineRun doc) :
    countPB doc + 1 ≤ E.pageCount := by
  have h1 := countPB_le_pageOf E doc.length le_rfl
  have h2 := E.covers doc.length le_rfl
  rw [List.take_length] at h1
  omega

/-- The nominal engine run on the constructed document: no overflow, each
position sits on the page opened by the breaks before it, 15 pages total. -/
def nominalRun : EngineRun elements where
  pageOf i := countPB (elements.take i)
  mono := fun _ _ hij => countPB_take_mono elements hij
  breakAdvances := by
    intro i h
    show countPB (elements.take i) < countPB (elements.take (i + 1))
    rw [countPB_take_succ, h]
    simp [countPB]
  pageCount := 15
  covers := by
    intro i hi
    show countPB (elements.take i) < 15
    have h1 : countPB (elements.take i) ≤ countPB (elements.take elements.length) :=
      countPB_take_mono elements hi
    rw [List.take_length] at h1
    have h2 : countPB elements = 14 := rfl
    omega

/-- The twelve section titles the body styles with `CustomHeading`, in the
order they are appended. -/
def bodyHeadingTitles : List String :=
  ["🔐 Authentication & Authorization", "👤 User Management Endpoints",
   "💊 Medicine Store Endpoints", "⚙️ Admin Store Management",
   "📦 Items Management", "🗺️ Location Services", "📏 Unit Management",
   "💰 GST Rate Management", "📋 Orders", "💳 Payments", "🔔 Notifications",
   "📊 Standard Response Formats"]

/-! ## The claims -/

/-- C1 (counterexample): the claimed build-time width check does not exist.
Appending a table whose single column is 9 inches wide — strictly wider than
the content width — succeeds: block construction accepts it and cannot fail
with a `ConfigurationError`; an over-wide table could only surface inside
the layout engine during rendering. -/
theorem c1_overwide_table_is_accepted :
    contentWidth < 9 * inch ∧
    appendBlock elements (Flowable.table [["wide"]] [9 * inch]) =
      Except.ok (elements ++ [Flowable.table [["wide"]] [9 * inch]]) := by
  constructor
  · norm_num [contentWidth, A4Width, leftMargin, rightMargin, mm, inch]
  · rfl

/-- C1 (amended): in the document as constructed, every Table block's
explicit column widths do sum to at most the content width — the eight
tables' width lists are exactly those below and each sums under the content
width — but this holds as a fact of the hard-coded data, not as an enforced
build-time check. -/
theorem c1_all_table_widths_fit_content_width :
    tableColWidths elements =
      [[7 * inch], [2 * inch, 2 * inch],
       [1.5 * inch, 2.5 * inch, 2.5 * inch],
       [1.8 * inch, 2.2 * inch, 2.5 * inch],
       [1.2 * inch, 2.5 * inch, 2.8 * inch],
       [1.2 * inch, 1 * inch, 0.8 * inch, 2.3 * inch],
       [0.8 * inch, 1.5 * inch, 3.2 * inch],
       [2 * inch, 1.2 * inch, 2.8 * inch]] ∧
    ∀ ws ∈ tableColWidths elements, ws.foldr (· + ·) 0 ≤ contentWidth := by
  have h : tableColWidths elements =
      [[7 * inch], [2 * inch, 2 * inch],
       [1.5 * inch, 2.5 * inch, 2.5 * inch],
       [1.8 * inch, 2.2 * inch, 2.5 * inch],
       [1.2 * inch, 2.5 * inch, 2.8 * inch],
       [1.2 * inch, 1 * inch, 0.8 * inch, 2.3 * inch],
       [0.8 * inch, 1.5 * inch, 3.2 * inch],
       [2 * inch, 1.2 * inch, 2.8 * inch]] := rfl
  refine ⟨h, ?_⟩
  intro ws hws
  rw [h] at hws
  fin_cases hws <;>
    norm_num [contentWidth, A4Width, leftMargin, rightMargin, mm, inch]

/-- Witness for C1's amended theorem at the title table's width list. -/
theorem c1_table_width_fit_witness :
    [(7 : ℚ) * inch].foldr (· + ·) 0 ≤ contentWidth :=
  c1_all_table_widths_fit_content_width.2 [7 * inch]
    (by rw [c1_all_table_widths_fit_content_width.1]; simp)

/-- C2: the construction phase is pure — it returns whatever environment it
was started in unchanged and performs no I/O — and it succeeds on the
constructed document, producing the full block sequence; its only possible
failure is a stylesheet lookup of an undefined name, which yields
`ConfigError.undefinedStyle` and never silently falls back to a default
style. -/
theorem c2_construction_pure_and_no_dangling_styles :
    (∀ e : Env, buildPhase e = (Except.ok elements, e)) ∧
    (∀ n : String, sampleStyleNames.contains n = false →
      resolveStyle n = Except.error (ConfigError.undefinedStyle n)) := by
  constructor
  · intro e; rfl
  · intro n h
    have h' : n ∉ sampleStyleNames := by simpa using h
    simp [resolveStyle, h']

/-- Witness for C2: a concrete environment passes through construction
untouched, and the undefined style name `CustomMissing` errors. -/
theorem c2_witness :
    buildPhase ⟨0, ⟨fun _ => none, fun _ => true⟩⟩ =
      (Except.ok elements, ⟨0, ⟨fun _ => none, fun _ => true⟩⟩) ∧
    resolveStyle "CustomMissing" =
      Except.error (ConfigError.undefinedStyle "CustomMissing") :=
  ⟨c2_construction_pure_and_no_dangling_styles.1 _,
   c2_construction_pure_and_no_dangling_styles.2 "CustomMissing" (by decide)⟩

/-- C3: the block sequence is exactly title-page blocks, an explicit
PageBreak, the table-of-contents blocks, a PageBreak, then the twelve
API-area sections each followed by a PageBreak, and the closing summary
paragraph as the very last block; each section opens with a heading-styled
title. -/
theorem c3_blocks_in_prescribed_order :
    elements =
      titlePageBlocks ++ [Flowable.pageBreak] ++ tocBlocks ++
        [Flowable.pageBreak] ++
        sections.foldr (fun s acc => s ++ [Flowable.pageBreak] ++ acc)
          [footerPara] ∧
    elements.getLast? = some footerPara ∧
    sections.length = 12 ∧
    sections.all (fun s =>
      match s.head? with
      | some (Flowable.para _ st) => st.name == "CustomHeading"
      | _ => false) = true := by
  refine ⟨rfl, by decide, rfl, by decide⟩

/-- C4: for any document and any engine pagination satisfying the engine
contract, the page count is at least the number of explicit PageBreak blocks
plus one; the constructed document carries exactly 14 explicit PageBreaks,
so any run on it produces at least 15 pages. -/
theorem c4_page_count_at_least_breaks_plus_one :
    (∀ (doc : List Flowable) (E : EngineRun doc),
      countPB doc + 1 ≤ E.pageCount) ∧
    countPB elements = 14 :=
  ⟨engine_pageCount_lower, rfl⟩

/-- Witness for C4: the nominal run on the constructed document has at
least 15 pages. -/
theorem c4_witness : countPB elements + 1 ≤ nominalRun.pageCount :=
  c4_page_count_at_least_breaks_plus_one.1 elements nominalRun

/-- C5: the constructed document does not depend on the environment — in
particular not on the clock — so any (deterministic) pagination of it is
identical across runs; the `Generated` date and the endpoint count are the
hardcoded literals `February 17, 2026` and `30+`, both in the metadata table
on the title page and in the closing summary. -/
theorem c5_deterministic_content_and_pagination :
    (∀ e₁ e₂ : Env, (buildPhase e₁).1 = (buildPhase e₂).1) ∧
    (∀ (paginate : List Flowable → ℕ) (e₁ e₂ : Env)
        (d₁ d₂ : List Flowable),
      (buildPhase e₁).1 = Except.ok d₁ → (buildPhase e₂).1 = Except.ok d₂ →
      paginate d₁ = paginate d₂) ∧
    elements[3]? = some (Flowable.table metadata_data [2 * inch, 2 * inch]) ∧
    ["Generated", "February 17, 2026"] ∈ metadata_data ∧
    ["Endpoints", "30+"] ∈ metadata_data ∧
    containsSubstring footer_content "February 17, 2026" = true ∧
    containsSubstring footer_content "30+" = true := by
  refine ⟨fun e₁ e₂ => rfl, ?_, rfl, by decide, by decide, by decide, by decide⟩
  intro paginate e₁ e₂ d₁ d₂ h₁ h₂
  have k₁ : Except.ok (ε := ConfigError) elements = Except.ok d₁ := h₁ ▸ rfl
  have k₂ : Except.ok (ε := ConfigError) elements = Except.ok d₂ := h₂ ▸ rfl
  cases Except.ok.inj k₁
  cases Except.ok.inj k₂
  rfl

/-- Witness for C5: two runs at different clock times paginate the same. -/
theorem c5_witness :
    countPB elements = countPB elements :=
  c5_deterministic_content_and_pagination.2.1 countPB
    ⟨0, ⟨fun _ => none, fun _ => true⟩⟩ ⟨987654321, ⟨fun _ => none, fun _ => false⟩⟩
    elements elements rfl rfl

/-- C6: if the output path is unwritable, the run fails with an I/O error
and the environment — in particular the file (or absence of one) at the
output path — is exactly as before: no truncated or partial artifact is left
behind. -/
theorem c6_unwritable_path_clean_failure :
    ∀ e : Env, e.fs.writable pdf_filename = false →
      create_api_pdf e = (e, Except.error PdfError.ioError) ∧
      (create_api_pdf e).1.fs.files pdf_filename = e.fs.files pdf_filename := by
  intro e h
  have hred : create_api_pdf e =
      (⟨e.time, (docBuild e.fs pdf_filename elements).1⟩,
       (docBuild e.fs pdf_filename elements).2) := rfl
  rw [hred]
  simp [docBuild, h]

/-- Witness for C6 at a concrete nowhere-writable environment. -/
theorem c6_witness :
    create_api_pdf ⟨0, ⟨fun _ => none, fun _ => false⟩⟩ =
      (⟨0, ⟨fun _ => none, fun _ => false⟩⟩, Except.error PdfError.ioError) :=
  (c6_unwritable_path_clean_failure ⟨0, ⟨fun _ => none, fun _ => false⟩⟩ rfl).1

/-- C7: the output path is the constant `API_DOCUMENTATION.pdf` — it depends
on no input, argument or environment value; on a writable file system the
artifact at that path is replaced wholesale with the freshly rendered
document regardless of what was there before (overwrite, never append), and
no other path is ever written (no versioned copies). -/
theorem c7_fixed_output_path_overwrite :
    pdf_filename = "API_DOCUMENTATION.pdf" ∧
    (∀ (e : Env) (p : String), p ≠ pdf_filename →
      (create_api_pdf e).1.fs.files p = e.fs.files p) ∧
    (∀ e : Env, e.fs.writable pdf_filename = true →
      (create_api_pdf e).1.fs.files pdf_filename = some elements) := by
  refine ⟨rfl, ?_, ?_⟩
  · intro e p hp
    have hred : (create_api_pdf e).1.fs =
        (docBuild e.fs pdf_filename elements).1 := rfl
    rw [hred]
    by_cases hw : e.fs.writable pdf_filename = true
    · simp [docBuild, hw, hp]
    · simp [docBuild, hw]
  · intro e hw
    have hred : (create_api_pdf e).1.fs =
        (docBuild e.fs pdf_filename elements).1 := rfl
    rw [hred]
    simp [docBuild, hw]

/-- Witness for C7: on a concrete all-writable file system, an unrelated
path keeps its (absent) content and the fixed path holds the artifact. -/
theorem c7_witness :
    (create_api_pdf ⟨0, ⟨fun _ => none, fun _ => true⟩⟩).1.fs.files
        "other.pdf" = none ∧
    (create_api_pdf ⟨0, ⟨fun _ => none, fun _ => true⟩⟩).1.fs.files
        pdf_filename = some elements :=
  ⟨c7_fixed_output_path_overwrite.2.1 ⟨0, ⟨fun _ => none, fun _ => true⟩⟩
      "other.pdf" (by decide),
   c7_fixed_output_path_overwrite.2.2 ⟨0, ⟨fun _ => none, fun _ => true⟩⟩ rfl⟩

/-- C8: every block in the constructed sequence is one of the four
content-block variants — Paragraph, Table, Spacer or PageBreak; no flowable
of any other kind is ever appended. -/
theorem c8_only_four_block_variants :
    elements.all isContentBlock = true := rfl

/-- C9: the margin values handed to the engine are not 15 mm and 20 mm in
the engine's point unit: `15*mm` with the script's `mm = 0.0393701` is about
0.59 pt and `20*mm` about 0.79 pt, so the effective content width on A4 is
about 594 pt ≈ 8.25 in — not the ≈7.08 in that genuine 15 mm side margins
would leave. -/
theorem c9_margins_points_not_mm :
    leftMargin ≠ 15 * reportlabMM ∧
    topMargin ≠ 20 * reportlabMM ∧
    (59 / 100 : ℚ) < leftMargin ∧ leftMargin < 60 / 100 ∧
    (78 / 100 : ℚ) < topMargin ∧ topMargin < 79 / 100 ∧
    (594 : ℚ) < contentWidth ∧ contentWidth < 5941 / 10 ∧
    (825 / 100 : ℚ) < contentWidth / 72 ∧ contentWidth / 72 < 826 / 100 ∧
    (708 / 100 : ℚ) < (A4Width - 2 * (15 * reportlabMM)) / 72 ∧
    (A4Width - 2 * (15 * reportlabMM)) / 72 < 709 / 100 := by
  norm_num [leftMargin, topMargin, contentWidth, A4Width, rightMargin, mm,
    reportlabMM]

/-- C10: the table of contents lists exactly twelve entries numbered 1–12 in
order; the body appends exactly twelve heading-styled section titles (the
only other `CustomHeading` paragraph being the TOC heading itself), the i-th
of which is on the topic of the i-th TOC entry, running from
`Authentication & Authorization` through `Response Formats`. -/
theorem c10_toc_matches_section_headings :
    toc_items.length = 12 ∧
    ((List.range 12).zip toc_items).all
      (fun p => (Nat.repr (p.1 + 1) ++ ".").toList.isPrefixOf p.2.toList) =
        true ∧
    headingTexts elements = "📑 Table of Contents" :: bodyHeadingTitles ∧
    bodyHeadingTitles.length = 12 ∧
    (toc_items.zip bodyHeadingTitles).all
      (fun p => containsSubList (tocTopicWord p.1) p.2.toList) = true ∧
    containsSubstring (bodyHeadingTitles.headD "")
      "Authentication & Authorization" = true ∧
    containsSubstring (bodyHeadingTitles.getLastD "") "Response Formats" =
      true := by
  refine ⟨rfl, by decide, by decide, rfl, by decide, by decide, by decide⟩

end PhrmaPdf
